import Mathlib

/-!
# Verification of the paper-trading simulation engine

This file embeds the virtual-portfolio simulation engine of
`paper-trading.ts` (class `PaperTradingBot`) in Lean 4 and proves the
specified properties about it.

Modelling conventions:
* JavaScript numbers are modelled as exact rationals (`ℚ`); the claims under
  study are about the algebraic relationships the code computes.
* The `Map<string, PaperBalance>` field `paperBalances` is modelled as an
  association list with the JS `Map` operations `get`/`set`/`delete`.
* Randomness (`Math.random()`) and the wall clock (`Date.now()`) are
  side-effect inputs; every draw the code makes is passed in explicitly as a
  parameter of the corresponding operation.
* `setTimeout(...)`-scheduled auto-sells are modelled by a queue of pending
  `(tokenMint, buyTradeId)` timers in the state; a timer may fire at any
  later point (the real delays carry random jitter, so firing order is
  arbitrary), and each armed timer fires at most once.
* `config.quoteToken.symbol || 'SOL'` is recomputed identically at each use
  site in the source; it is modelled as the precomputed constant
  `Config.quoteSymbol`.
-/

inductive TradeAction where
  | buy
  | sell
deriving DecidableEq, Repr

/-- The `PaperBalance` record of `paper-trading.ts`. -/
structure PaperBalance where
  token : String
  amount : ℚ
  symbol : String
deriving DecidableEq, Repr

/-- The `PaperTrade` record of `paper-trading.ts`.  Timestamps are the `Nat`
values supplied by the environment for `Date.now()` / `new Date()`. -/
structure PaperTrade where
  id : String
  action : TradeAction
  token : String
  tokenSymbol : String
  quoteAmount : ℚ
  tokenAmount : ℚ
  price : ℚ
  timestamp : Nat
  profit : Option ℚ := none
  profitPercent : Option ℚ := none
deriving DecidableEq, Repr

/-- The engine configuration fields used by the paper-trading methods. -/
structure Config where
  quoteSymbol : String
  quoteMint : String
  quoteAmount : ℚ
  sellSlippage : ℚ
  autoSell : Bool
deriving DecidableEq, Repr

/-- JS `Map.get`. -/
def mapGet (l : List (String × PaperBalance)) (k : String) : Option PaperBalance :=
  (l.find? (fun p => p.1 == k)).map Prod.snd

/-- JS `Map.set`: replace the entry of an existing key in place, otherwise
append a new entry. -/
def mapSet (l : List (String × PaperBalance)) (k : String) (v : PaperBalance) :
    List (String × PaperBalance) :=
  match l with
  | [] => [(k, v)]
  | (k', v') :: rest => if k' == k then (k, v) :: rest else (k', v') :: mapSet rest k v

/-- JS `Map.delete`. -/
def mapDelete (l : List (String × PaperBalance)) (k : String) :
    List (String × PaperBalance) :=
  l.filter (fun p => !(p.1 == k))

/-- The mutable fields of `PaperTradingBot`, plus the queue of armed
auto-sell timers (`setTimeout` callbacks scheduled but not yet fired). -/
structure BotState where
  paperBalances : List (String × PaperBalance)
  paperTrades : List PaperTrade
  totalPaperProfit : ℚ
  tradeCounter : Nat
  initialBalance : ℚ
  pendingSells : List (String × String)
deriving DecidableEq, Repr

/-- Initial balances (`initializePaperBalances`): 100 USDC when the quote symbol is `USDC`,
otherwise 1 SOL. -/
def initialState (cfg : Config) : BotState :=
  if cfg.quoteSymbol = "USDC" then
    { paperBalances := [("USDC", { token := cfg.quoteMint, amount := 100, symbol := "USDC" })]
      paperTrades := []
      totalPaperProfit := 0
      tradeCounter := 0
      initialBalance := 100
      pendingSells := [] }
  else
    { paperBalances := [("SOL", { token := cfg.quoteMint, amount := 1, symbol := "SOL" })]
      paperTrades := []
      totalPaperProfit := 0
      tradeCounter := 0
      initialBalance := 1
      pendingSells := [] }

/-- Buy trade id `` `trade_${++this.tradeCounter}_${Date.now()}` ``. -/
def mkTradeId (n : Nat) (ts : Nat) : String :=
  "trade_" ++ toString n ++ "_" ++ toString ts

/-- Derived sell id `` `sell_${buyTradeId}` ``. -/
def mkSellId (buyTradeId : String) : String :=
  "sell_" ++ buyTradeId

/-- Token display symbol `` `TOKEN_${tokenMint.substring(0, 8)}` ``. -/
def tokenSymbolOf (tokenMint : String) : String :=
  "TOKEN_" ++ (tokenMint.take 8)

/-- Log/telemetry events emitted by the engine (the claims only need to
distinguish the kinds of log lines). -/
inductive LogEvent where
  | buyRejected
  | buyExecuted (tradeId : String)
  | sellNoop
  | sellError
  | sellExecuted (profit : ℚ)
deriving DecidableEq, Repr

/-- Open execution (`executePaperBuy`): `estimatedTokenPrice` is the random acquisition price
the code draws (`Math.random() * 0.001 + 0.0001`), `ts` the `Date.now()`
value.  Rejects with a single warning and no mutation when the quote balance
is missing or smaller than the configured buy amount; otherwise debits the
quote balance, overwrites the token's balance entry, appends a Buy trade and,
when auto-sell is on, arms one auto-sell timer for the new trade id. -/
def executePaperBuy (cfg : Config) (tokenMint : String) (estimatedTokenPrice : ℚ)
    (ts : Nat) (st : BotState) : BotState × List LogEvent :=
  match mapGet st.paperBalances cfg.quoteSymbol with
  | none => (st, [LogEvent.buyRejected])
  | some quoteBalance =>
    if quoteBalance.amount < cfg.quoteAmount then
      (st, [LogEvent.buyRejected])
    else
      let quoteAmount := cfg.quoteAmount
      let tokenAmount := quoteAmount / estimatedTokenPrice
      let tradeId := mkTradeId (st.tradeCounter + 1) ts
      let balances1 := mapSet st.paperBalances cfg.quoteSymbol
        { quoteBalance with amount := quoteBalance.amount - quoteAmount }
      let balances2 := mapSet balances1 tokenMint
        { token := tokenMint, amount := tokenAmount, symbol := tokenSymbolOf tokenMint }
      let trade : PaperTrade :=
        { id := tradeId
          action := TradeAction.buy
          token := tokenMint
          tokenSymbol := tokenSymbolOf tokenMint
          quoteAmount := quoteAmount
          tokenAmount := tokenAmount
          price := estimatedTokenPrice
          timestamp := ts }
      ({ st with
          paperBalances := balances2
          paperTrades := st.paperTrades ++ [trade]
          tradeCounter := st.tradeCounter + 1
          pendingSells :=
            if cfg.autoSell then st.pendingSells ++ [(tokenMint, tradeId)]
            else st.pendingSells },
       [LogEvent.buyExecuted tradeId])

/-- Close execution (`executePaperSell`): `priceMultiplier` is the value returned by
`simulatePriceMovement`, `ts` the `new Date()` value.  When the token's
balance entry or the referenced Buy trade is missing it warns and returns
without mutating anything.  The `this.paperBalances.get(symbol)!` non-null
assertion: if the quote entry were absent the resulting `TypeError` is caught
by the surrounding `try`/`catch` before any mutation, also a no-op. -/
def executePaperSell (cfg : Config) (tokenMint : String) (buyTradeId : String)
    (priceMultiplier : ℚ) (ts : Nat) (st : BotState) : BotState × List LogEvent :=
  match mapGet st.paperBalances tokenMint,
        st.paperTrades.find? (fun t => t.id == buyTradeId && t.action == TradeAction.buy) with
  | some tokenBalance, some buyTrade =>
    match mapGet st.paperBalances cfg.quoteSymbol with
    | none => (st, [LogEvent.sellError])
    | some quoteBalance =>
      let newPrice := buyTrade.price * priceMultiplier
      let quoteAmountReceived := tokenBalance.amount * newPrice
      let slippageMultiplier := 1 - cfg.sellSlippage / 100
      let finalQuoteAmount := quoteAmountReceived * slippageMultiplier
      let balances1 := mapSet st.paperBalances cfg.quoteSymbol
        { quoteBalance with amount := quoteBalance.amount + finalQuoteAmount }
      let balances2 := mapDelete balances1 tokenMint
      let profit := finalQuoteAmount - buyTrade.quoteAmount
      let profitPercent := profit / buyTrade.quoteAmount * 100
      let sellTrade : PaperTrade :=
        { id := mkSellId buyTradeId
          action := TradeAction.sell
          token := tokenMint
          tokenSymbol := buyTrade.tokenSymbol
          quoteAmount := finalQuoteAmount
          tokenAmount := tokenBalance.amount
          price := newPrice
          timestamp := ts
          profit := some profit
          profitPercent := some profitPercent }
      ({ st with
          paperBalances := balances2
          paperTrades := st.paperTrades ++ [sellTrade]
          totalPaperProfit := st.totalPaperProfit + profit },
       [LogEvent.sellExecuted profit])
  | _, _ => (st, [LogEvent.sellNoop])

/-- The public `sell` method (external "token balance observed" event): if a
balance entry for the mint exists, find the first Buy trade for that mint not
yet matched by a Sell with the derived id, and settle it. -/
def sell (cfg : Config) (tokenMint : String) (priceMultiplier : ℚ) (ts : Nat)
    (st : BotState) : BotState × List LogEvent :=
  match mapGet st.paperBalances tokenMint with
  | some _ =>
    match st.paperTrades.find? (fun t =>
        t.token == tokenMint && t.action == TradeAction.buy &&
        !(st.paperTrades.any (fun sellT => sellT.id == mkSellId t.id))) with
    | some buyTrade => executePaperSell cfg tokenMint buyTrade.id priceMultiplier ts st
    | none => (st, [])
  | none => (st, [])

/-- An armed auto-sell timer fires: the `setTimeout` callback invokes
`executePaperSell` with the token mint and buy trade id captured at arming
time.  `i` selects which pending timer fires (delays carry random jitter, so
any firing order is possible); a fired timer is removed from the queue. -/
def fireTimer (cfg : Config) (i : Nat) (priceMultiplier : ℚ) (ts : Nat)
    (st : BotState) : BotState × List LogEvent :=
  match st.pendingSells[i]? with
  | some (tokenMint, buyTradeId) =>
    executePaperSell cfg tokenMint buyTradeId priceMultiplier ts
      { st with pendingSells := st.pendingSells.eraseIdx i }
  | none => (st, [])

/-- The scenario table of `simulatePriceMovement`: pairs of a probability and
a multiplier sampler (each `() => a + Math.random() * b` closure, with the
fresh uniform draw made explicit as the sampler's argument). -/
def scenarios : List (ℚ × (ℚ → ℚ)) :=
  [ (0.4, fun u => 0.1 + u * 0.4)
  , (0.3, fun u => 0.7 + u * 0.6)
  , (0.2, fun u => 1.3 + u * 1.7)
  , (0.1, fun u => 3 + u * 12) ]

/-- The `for (const scenario of scenarios)` loop: accumulate the cumulative
probability and return the first matched bucket's sampled multiplier. -/
def pickScenario (random : ℚ) (u : ℚ) (cumulativeProbability : ℚ) :
    List (ℚ × (ℚ → ℚ)) → ℚ
  | [] => 1
  | (probability, multiplier) :: rest =>
    let cumulativeProbability := cumulativeProbability + probability
    if random ≤ cumulativeProbability then multiplier u
    else pickScenario random u cumulativeProbability rest

/-- Price sampler (`simulatePriceMovement`): `random` is the bucket-selection draw, `u` the
uniform draw consumed by the selected bucket's multiplier closure.  Returns
`1` as fallback when no bucket matches. -/
def simulatePriceMovement (random u : ℚ) : ℚ :=
  pickScenario random u 0 scenarios

/-- The aggregate figures `printSummary` derives from the ledgers. -/
structure Summary where
  currentBalance : ℚ
  totalReturn : ℚ
  totalOpportunities : Nat
  completedTrades : Nat
  winRate : ℚ
  totalProfit : ℚ
deriving DecidableEq, Repr

/-- Summary derivation: `printSummary` as a pure read of the state (the method only reads the
ledgers and logs the derived figures; it performs no mutation).  JS
`t.profit! > 0` on a record without `profit` compares `undefined > 0`, which
is `false`, matching `Option.getD 0`. -/
def printSummary (cfg : Config) (st : BotState) : Summary :=
  let completedTrades := st.paperTrades.filter (fun t => t.action == TradeAction.sell)
  let winningTrades := completedTrades.filter (fun t => decide (0 < t.profit.getD 0))
  let currentBalance := ((mapGet st.paperBalances cfg.quoteSymbol).map PaperBalance.amount).getD 0
  { currentBalance := currentBalance
    totalReturn := (currentBalance - st.initialBalance) / st.initialBalance * 100
    totalOpportunities := (st.paperTrades.filter (fun t => t.action == TradeAction.buy)).length
    completedTrades := completedTrades.length
    winRate :=
      if 0 < completedTrades.length then
        ((winningTrades.length : ℚ) / (completedTrades.length : ℚ)) * 100
      else 0
    totalProfit := st.totalPaperProfit }

/-- The asynchronous events driving the engine: a new pool detected (Open
attempt via `buy`/`executePaperBuy`, carrying the environment's random
acquisition price and clock value), an external wallet sell observation
(Close attempt via `sell`), and an armed auto-sell timer firing.  Close
events carry the multiplier `simulatePriceMovement` returns for that
invocation's draws. -/
inductive Event where
  | poolDetected (tokenMint : String) (estimatedTokenPrice : ℚ) (ts : Nat)
  | walletSell (tokenMint : String) (priceMultiplier : ℚ) (ts : Nat)
  | timerFired (i : Nat) (priceMultiplier : ℚ) (ts : Nat)
deriving DecidableEq, Repr

def step (cfg : Config) (st : BotState) : Event → BotState × List LogEvent
  | Event.poolDetected tokenMint price ts => executePaperBuy cfg tokenMint price ts st
  | Event.walletSell tokenMint mult ts => sell cfg tokenMint mult ts st
  | Event.timerFired i mult ts => fireTimer cfg i mult ts st

def run (cfg : Config) (st : BotState) (es : List Event) : BotState :=
  es.foldl (fun s e => (step cfg s e).1) st

/-! ## Derived ledger quantities -/

/-- Number of Sell records in the trade ledger. -/
def sellTradeCount (st : BotState) : Nat :=
  st.paperTrades.countP (fun t => t.action == TradeAction.sell)

/-- Number of Sell records whose recorded profit is strictly positive. -/
def winningSellCount (st : BotState) : Nat :=
  st.paperTrades.countP (fun t => t.action == TradeAction.sell && decide (0 < t.profit.getD 0))

/-- Sum of the quote amounts of the Buy records in a trade list. -/
def buyVolumeL (l : List PaperTrade) : ℚ :=
  ((l.filter (fun t => t.action == TradeAction.buy)).map PaperTrade.quoteAmount).sum

/-- Sum of the quote amounts of the Sell records in a trade list. -/
def sellVolumeL (l : List PaperTrade) : ℚ :=
  ((l.filter (fun t => t.action == TradeAction.sell)).map PaperTrade.quoteAmount).sum

/-- Sum of the quote amounts of all Buy records (what the Buys debited). -/
def buyVolume (st : BotState) : ℚ :=
  buyVolumeL st.paperTrades

/-- Sum of the quote amounts of all Sell records (the net proceeds the Sells
credited). -/
def sellVolume (st : BotState) : ℚ :=
  sellVolumeL st.paperTrades

/-- The current quote-asset balance (`0` if the entry is absent). -/
def quoteBalanceOf (cfg : Config) (st : BotState) : ℚ :=
  ((mapGet st.paperBalances cfg.quoteSymbol).map PaperBalance.amount).getD 0

section Proofs

attribute [local semireducible] Rat.add Rat.sub Rat.mul Rat.inv Rat.ofScientific

/-! ## Association-list map lemmas -/

theorem mapGet_mapSet_self (l : List (String × PaperBalance)) (k : String) (v : PaperBalance) :
    mapGet (mapSet l k v) k = some v := by
  induction l with
  | nil => simp [mapGet, mapSet, List.find?]
  | cons p rest ih =>
    obtain ⟨k0, v0⟩ := p
    by_cases h0 : k0 = k
    · subst h0
      simp [mapGet, mapSet, List.find?]
    · have h0f : (k0 == k) = false := beq_eq_false_iff_ne.mpr h0
      simpa [mapGet, mapSet, List.find?, h0f] using ih

theorem mapGet_mapSet_ne (l : List (String × PaperBalance)) (k k' : String) (v : PaperBalance)
    (h : k' ≠ k) : mapGet (mapSet l k v) k' = mapGet l k' := by
  have hkk : (k == k') = false := beq_eq_false_iff_ne.mpr (Ne.symm h)
  induction l with
  | nil => simp [mapGet, mapSet, List.find?, hkk]
  | cons p rest ih =>
    obtain ⟨k0, v0⟩ := p
    by_cases h0 : k0 = k
    · subst h0
      simp [mapGet, mapSet, List.find?, hkk]
    · have h0f : (k0 == k) = false := beq_eq_false_iff_ne.mpr h0
      by_cases h1 : k0 = k'
      · subst h1
        simp [mapGet, mapSet, List.find?, h0f]
      · have h1f : (k0 == k') = false := beq_eq_false_iff_ne.mpr h1
        simpa [mapGet, mapSet, List.find?, h0f, h1f] using ih

theorem mapGet_mapDelete_self (l : List (String × PaperBalance)) (k : String) :
    mapGet (mapDelete l k) k = none := by
  induction l with
  | nil => simp [mapGet, mapDelete, List.find?]
  | cons p rest ih =>
    obtain ⟨k0, v0⟩ := p
    by_cases h0 : k0 = k
    · subst h0
      simp [mapGet, mapDelete, List.filter_cons, ih]
    · have h0f : (k0 == k) = false := beq_eq_false_iff_ne.mpr h0
      simp [mapGet, mapDelete, List.filter_cons, List.find?, h0f, ih]

theorem mapGet_mapDelete_ne (l : List (String × PaperBalance)) (k k' : String)
    (h : k' ≠ k) : mapGet (mapDelete l k) k' = mapGet l k' := by
  induction l with
  | nil => simp [mapGet, mapDelete]
  | cons p rest ih =>
    obtain ⟨k0, v0⟩ := p
    by_cases h0 : k0 = k
    · subst h0
      have h1f : (k0 == k') = false := beq_eq_false_iff_ne.mpr (Ne.symm h)
      simpa [mapGet, mapDelete, List.filter_cons, List.find?, h1f] using ih
    · have h0f : (k0 == k) = false := beq_eq_false_iff_ne.mpr h0
      by_cases h1 : k0 = k'
      · subst h1
        simp [mapGet, mapDelete, List.filter_cons, List.find?, h0f]
      · have h1f : (k0 == k') = false := beq_eq_false_iff_ne.mpr h1
        simpa [mapGet, mapDelete, List.filter_cons, List.find?, h0f, h1f] using ih

/-! ## Concrete engine fixtures used by the closed theorems -/

/-- A SOL-quoted configuration with `fixedBuyQuoteAmount = 0.05` and
`sellSlippagePercent = 2`, as in the spec's end-to-end example. -/
def exampleCfg : Config :=
  { quoteSymbol := "SOL", quoteMint := "WSOL", quoteAmount := 0.05
    sellSlippage := 2, autoSell := true }

/-- The state after the example's Open: buy of `MINTA` at the synthetic
acquisition price `0.0005`, from the initial 1-SOL balance. -/
def exampleAfterOpen : BotState :=
  (executePaperBuy exampleCfg "MINTA" 0.0005 11 (initialState exampleCfg)).1

/-- The state after the example's Close with sampled multiplier `1.5`. -/
def exampleAfterClose : BotState :=
  (executePaperSell exampleCfg "MINTA" (mkTradeId 1 11) 1.5 12 exampleAfterOpen).1

/-- C2: For an engine with initial quote balance 1.0, fixed buy amount
0.05, acquisition price 0.0005, sell slippage 2 % and sampled close
multiplier 1.5: Open leaves quote balance 0.95 and asset quantity 100; Close
records exit price 0.00075, settled asset amount 100 (gross proceeds
100 · 0.00075 = 0.075), net proceeds 0.0735 (credited to the quote asset,
giving balance 1.0235), profit 0.0235 and profit percent 47. -/
theorem open_close_example :
    ((mapGet exampleAfterOpen.paperBalances "SOL").map PaperBalance.amount = some 0.95) ∧
    ((mapGet exampleAfterOpen.paperBalances "MINTA").map PaperBalance.amount = some 100) ∧
    (exampleAfterClose.paperTrades.getLast?.map PaperTrade.price = some 0.00075) ∧
    (exampleAfterClose.paperTrades.getLast?.map PaperTrade.tokenAmount = some 100) ∧
    (exampleAfterClose.paperTrades.getLast?.map
      (fun t => t.tokenAmount * t.price) = some 0.075) ∧
    (exampleAfterClose.paperTrades.getLast?.map PaperTrade.quoteAmount = some 0.0735) ∧
    (exampleAfterClose.paperTrades.getLast?.map PaperTrade.profit = some (some 0.0235)) ∧
    (exampleAfterClose.paperTrades.getLast?.map PaperTrade.profitPercent = some (some 47)) ∧
    ((mapGet exampleAfterClose.paperBalances "SOL").map PaperBalance.amount = some 1.0235) := by
  decide

/-- C3: An Open attempt whose configured quote amount exceeds the current
quote balance returns the state entirely unchanged — balance map, trade
ledger, trade counter, total-profit counter and pending auto-sell timers —
and emits exactly one rejection log. -/
theorem insufficient_funds_noop (cfg : Config) (st : BotState) (tokenMint : String)
    (estimatedTokenPrice : ℚ) (ts : Nat) (qb : PaperBalance)
    (hqb : mapGet st.paperBalances cfg.quoteSymbol = some qb)
    (hlt : qb.amount < cfg.quoteAmount) :
    executePaperBuy cfg tokenMint estimatedTokenPrice ts st = (st, [LogEvent.buyRejected]) := by
  unfold executePaperBuy
  rw [hqb]
  simp [hlt]

/-- Fixture for the insufficient-funds witness: quote balance 0.02. -/
def lowBalanceState : BotState :=
  { paperBalances := [("SOL", { token := "WSOL", amount := 0.02, symbol := "SOL" })]
    paperTrades := []
    totalPaperProfit := 0
    tradeCounter := 0
    initialBalance := 1
    pendingSells := [] }

/-- Witness for `insufficient_funds_noop` at quote balance 0.02 against buy
amount 0.05. -/
theorem insufficient_funds_noop_witness :
    (mapGet lowBalanceState.paperBalances exampleCfg.quoteSymbol =
      some { token := "WSOL", amount := 0.02, symbol := "SOL" }) ∧
    ((0.02 : ℚ) < exampleCfg.quoteAmount) ∧
    executePaperBuy exampleCfg "MINTA" 0.0005 7 lowBalanceState =
      (lowBalanceState, [LogEvent.buyRejected]) :=
  ⟨by decide, by decide,
    insufficient_funds_noop exampleCfg lowBalanceState "MINTA" 0.0005 7
      { token := "WSOL", amount := 0.02, symbol := "SOL" } (by decide) (by decide)⟩

/-- C6: For every draw `r` in [0,1) and bucket-uniform `u` in [0,1),
`simulatePriceMovement` (total by construction — it never throws) returns a
multiplier within the multiplier range of the first scenario bucket whose
cumulative probability is ≥ the draw (cumulative bounds 0.4, 0.7, 0.9, 1.0;
ranges [0.1,0.5), [0.7,1.3), [1.3,3), [3,15)), or exactly 1 when no bucket
matches; in all cases the result is strictly positive. -/
theorem simulatePriceMovement_bucket_range (r u : ℚ)
    (hr0 : 0 ≤ r) (hr1 : r < 1) (hu0 : 0 ≤ u) (hu1 : u < 1) :
    ((r ≤ 0.4 ∧ 0.1 ≤ simulatePriceMovement r u ∧ simulatePriceMovement r u < 0.5) ∨
     (0.4 < r ∧ r ≤ 0.7 ∧ 0.7 ≤ simulatePriceMovement r u ∧ simulatePriceMovement r u < 1.3) ∨
     (0.7 < r ∧ r ≤ 0.9 ∧ 1.3 ≤ simulatePriceMovement r u ∧ simulatePriceMovement r u < 3) ∨
     (0.9 < r ∧ r ≤ 1 ∧ 3 ≤ simulatePriceMovement r u ∧ simulatePriceMovement r u < 15) ∨
     (1 < r ∧ simulatePriceMovement r u = 1)) ∧
    0 < simulatePriceMovement r u := by
  have hr0' := hr0
  clear hr0'
  simp only [simulatePriceMovement, scenarios, pickScenario]
  norm_num
  split_ifs with h1 h2 h3 h4
  · exact ⟨Or.inl ⟨by linarith, by nlinarith, by nlinarith⟩, by nlinarith⟩
  · exact ⟨Or.inr (Or.inl ⟨by linarith, by linarith, by nlinarith, by nlinarith⟩), by nlinarith⟩
  · exact ⟨Or.inr (Or.inr (Or.inl ⟨by linarith, by linarith, by nlinarith, by nlinarith⟩)), by nlinarith⟩
  · exact ⟨Or.inr (Or.inr (Or.inr (Or.inl ⟨by linarith, by linarith, by nlinarith, by nlinarith⟩))), by nlinarith⟩
  · exact ⟨Or.inr (Or.inr (Or.inr (Or.inr ⟨by linarith, rfl⟩))), by norm_num⟩

/-- Witness for `simulatePriceMovement_bucket_range` at `r = u = 1/2` (the
0.7-cumulative bucket; sampled multiplier 1). -/
theorem simulatePriceMovement_bucket_range_witness :
    ((0:ℚ) ≤ 1/2 ∧ (1/2:ℚ) < 1) ∧
    ((((1:ℚ)/2) ≤ 0.4 ∧ 0.1 ≤ simulatePriceMovement (1/2) (1/2) ∧
        simulatePriceMovement (1/2) (1/2) < 0.5) ∨
     (0.4 < ((1:ℚ)/2) ∧ ((1:ℚ)/2) ≤ 0.7 ∧ 0.7 ≤ simulatePriceMovement (1/2) (1/2) ∧
        simulatePriceMovement (1/2) (1/2) < 1.3) ∨
     (0.7 < ((1:ℚ)/2) ∧ ((1:ℚ)/2) ≤ 0.9 ∧ 1.3 ≤ simulatePriceMovement (1/2) (1/2) ∧
        simulatePriceMovement (1/2) (1/2) < 3) ∨
     (0.9 < ((1:ℚ)/2) ∧ ((1:ℚ)/2) ≤ 1 ∧ 3 ≤ simulatePriceMovement (1/2) (1/2) ∧
        simulatePriceMovement (1/2) (1/2) < 15) ∨
     (1 < ((1:ℚ)/2) ∧ simulatePriceMovement (1/2) (1/2) = 1)) ∧
    0 < simulatePriceMovement (1/2) (1/2) :=
  ⟨⟨by norm_num, by norm_num⟩,
    simulatePriceMovement_bucket_range (1/2) (1/2)
      (by norm_num) (by norm_num) (by norm_num) (by norm_num)⟩

/-- C8: The reported win rate equals the count of Sell trades with
strictly positive recorded profit divided by the count of all Sell trades,
times 100, and is 0 when there are no Sell trades.  (`printSummary` is
modelled as a pure function of the state, matching the source, which only
reads the ledgers and logs; it mutates nothing.) -/
theorem winRate_consistent (cfg : Config) (st : BotState) :
    (printSummary cfg st).winRate =
      if sellTradeCount st = 0 then 0
      else (winningSellCount st : ℚ) / (sellTradeCount st : ℚ) * 100 := by
  unfold printSummary sellTradeCount winningSellCount
  simp only [List.countP_eq_length_filter, List.filter_filter]
  rcases Nat.eq_zero_or_pos (st.paperTrades.filter
      (fun t => t.action == TradeAction.sell)).length with h | h
  · simp only [h]
    simp
  · have hne : (st.paperTrades.filter (fun t => t.action == TradeAction.sell)).length ≠ 0 :=
      Nat.pos_iff_ne_zero.mp h
    have hcomm : (fun a : PaperTrade => decide (0 < a.profit.getD 0) && (a.action == TradeAction.sell))
        = (fun t : PaperTrade => (t.action == TradeAction.sell) && decide (0 < t.profit.getD 0)) := by
      funext t
      exact Bool.and_comm _ _
    simp [h, hne, hcomm]

/-- Fixture for the zero-balance counterexample: quote balance exactly equal
to the configured buy amount 0.05. -/
def exactBalanceState : BotState :=
  { paperBalances := [("SOL", { token := "WSOL", amount := 0.05, symbol := "SOL" })]
    paperTrades := []
    totalPaperProfit := 0
    tradeCounter := 0
    initialBalance := 1
    pendingSells := [] }

/-- C4 counterexample: An Open that spends the entire remaining quote
balance does NOT remove the quote-asset entry: the entry stays in the balance
map with quantity exactly zero (the debit is a plain `amount -=`; no removal
happens). -/
theorem debit_to_zero_keeps_entry :
    mapGet (executePaperBuy exampleCfg "MINTA" 0.0005 7 exactBalanceState).1.paperBalances
      "SOL" = some { token := "WSOL", amount := 0, symbol := "SOL" } := by
  decide

/-- C4 amended: A debit that reduces the quote balance exactly to zero
leaves that Balance entry present with quantity zero; Balance entries are
removed only by a Close, which deletes the sold asset's entry (when the Close
is not a no-op). -/
theorem debit_to_zero_entry_stays (cfg : Config) (st st' : BotState)
    (tokenMint tokenMint' buyTradeId : String) (estimatedTokenPrice mult : ℚ)
    (ts ts' : Nat) (qb : PaperBalance)
    (hqb : mapGet st.paperBalances cfg.quoteSymbol = some qb)
    (heq : qb.amount = cfg.quoteAmount)
    (hmint : tokenMint ≠ cfg.quoteSymbol) :
    mapGet (executePaperBuy cfg tokenMint estimatedTokenPrice ts st).1.paperBalances
        cfg.quoteSymbol = some { qb with amount := 0 } ∧
    ((executePaperSell cfg tokenMint' buyTradeId mult ts' st') = (st', [LogEvent.sellNoop]) ∨
     (executePaperSell cfg tokenMint' buyTradeId mult ts' st') = (st', [LogEvent.sellError]) ∨
     mapGet (executePaperSell cfg tokenMint' buyTradeId mult ts' st').1.paperBalances
        tokenMint' = none) := by
  constructor
  · unfold executePaperBuy
    rw [hqb]
    have hnotlt : ¬ qb.amount < cfg.quoteAmount := by
      rw [heq]
      exact lt_irrefl _
    dsimp only
    rw [if_neg hnotlt]
    dsimp only
    rw [mapGet_mapSet_ne _ _ _ _ (Ne.symm hmint), mapGet_mapSet_self, heq]
    norm_num
  · unfold executePaperSell
    split
    · split
      · right; left; rfl
      · right; right
        simpa using mapGet_mapDelete_self _ tokenMint'
    · left; rfl

/-- Witness for `debit_to_zero_entry_stays`: buy amount 0.05 against quote
balance exactly 0.05; the Close component instantiated at the example Close. -/
theorem debit_to_zero_entry_stays_witness :
    (mapGet exactBalanceState.paperBalances exampleCfg.quoteSymbol =
      some { token := "WSOL", amount := 0.05, symbol := "SOL" }) ∧
    ((0.05 : ℚ) = exampleCfg.quoteAmount) ∧
    ("MINTA" ≠ exampleCfg.quoteSymbol) ∧
    (mapGet (executePaperBuy exampleCfg "MINTA" 0.0005 7 exactBalanceState).1.paperBalances
        exampleCfg.quoteSymbol =
      some { token := "WSOL", amount := 0, symbol := "SOL" }) ∧
    ((executePaperSell exampleCfg "MINTA" (mkTradeId 1 11) 1.5 12 exampleAfterOpen)
        = (exampleAfterOpen, [LogEvent.sellNoop]) ∨
     (executePaperSell exampleCfg "MINTA" (mkTradeId 1 11) 1.5 12 exampleAfterOpen)
        = (exampleAfterOpen, [LogEvent.sellError]) ∨
     mapGet (executePaperSell exampleCfg "MINTA" (mkTradeId 1 11) 1.5 12
        exampleAfterOpen).1.paperBalances "MINTA" = none) :=
  ⟨by decide, by decide, by decide,
    debit_to_zero_entry_stays exampleCfg exactBalanceState exampleAfterOpen
      "MINTA" "MINTA" (mkTradeId 1 11) 0.0005 1.5 7 12
      { token := "WSOL", amount := 0.05, symbol := "SOL" }
      (by decide) (by decide) (by decide)⟩

/-- The fully evaluated successful Close: balance entry and matched Buy
present, quote entry present.  Shared normal form for the Close theorems. -/
theorem executePaperSell_success (cfg : Config) (st : BotState)
    (tokenMint buyTradeId : String) (mult : ℚ) (ts : Nat) (tb qb : PaperBalance)
    (bt : PaperTrade)
    (hb : mapGet st.paperBalances tokenMint = some tb)
    (hf : st.paperTrades.find? (fun t => t.id == buyTradeId && t.action == TradeAction.buy)
      = some bt)
    (hq : mapGet st.paperBalances cfg.quoteSymbol = some qb) :
    executePaperSell cfg tokenMint buyTradeId mult ts st =
      ({ st with
          paperBalances := mapDelete (mapSet st.paperBalances cfg.quoteSymbol
            { qb with amount :=
                qb.amount + tb.amount * (bt.price * mult) * (1 - cfg.sellSlippage / 100) })
            tokenMint
          paperTrades := st.paperTrades ++
            [{ id := mkSellId buyTradeId
               action := TradeAction.sell
               token := tokenMint
               tokenSymbol := bt.tokenSymbol
               quoteAmount := tb.amount * (bt.price * mult) * (1 - cfg.sellSlippage / 100)
               tokenAmount := tb.amount
               price := bt.price * mult
               timestamp := ts
               profit := some (tb.amount * (bt.price * mult) * (1 - cfg.sellSlippage / 100)
                 - bt.quoteAmount)
               profitPercent := some ((tb.amount * (bt.price * mult)
                 * (1 - cfg.sellSlippage / 100) - bt.quoteAmount) / bt.quoteAmount * 100) }]
          totalPaperProfit := st.totalPaperProfit
            + (tb.amount * (bt.price * mult) * (1 - cfg.sellSlippage / 100) - bt.quoteAmount) },
       [LogEvent.sellExecuted (tb.amount * (bt.price * mult) * (1 - cfg.sellSlippage / 100)
         - bt.quoteAmount)]) := by
  unfold executePaperSell
  rw [hb, hf, hq]

/-- A Close whose asset has no balance entry is a no-op with a single
warning. -/
theorem executePaperSell_noop_of_missing_balance (cfg : Config) (st : BotState)
    (tokenMint buyTradeId : String) (mult : ℚ) (ts : Nat)
    (hb : mapGet st.paperBalances tokenMint = none) :
    executePaperSell cfg tokenMint buyTradeId mult ts st = (st, [LogEvent.sellNoop]) := by
  unfold executePaperSell
  rw [hb]

/-- C5: Invoking Close twice in succession for the same asset and buy id
(no intervening events — simulating the timer-versus-external-event race):
the first Close appends exactly one Sell record and adds its profit to the
running total once; the second invocation observes the missing Balance entry
and is a no-op with no state change. -/
theorem close_idempotent (cfg : Config) (st : BotState)
    (tokenMint buyTradeId : String) (mult mult' : ℚ) (tsn tsn' : Nat)
    (tb qb : PaperBalance) (bt : PaperTrade)
    (hb : mapGet st.paperBalances tokenMint = some tb)
    (hf : st.paperTrades.find? (fun t => t.id == buyTradeId && t.action == TradeAction.buy)
      = some bt)
    (hq : mapGet st.paperBalances cfg.quoteSymbol = some qb) :
    executePaperSell cfg tokenMint buyTradeId mult' tsn'
        (executePaperSell cfg tokenMint buyTradeId mult tsn st).1
      = ((executePaperSell cfg tokenMint buyTradeId mult tsn st).1, [LogEvent.sellNoop]) ∧
    sellTradeCount (executePaperSell cfg tokenMint buyTradeId mult tsn st).1
      = sellTradeCount st + 1 ∧
    (executePaperSell cfg tokenMint buyTradeId mult tsn st).1.totalPaperProfit
      = st.totalPaperProfit
        + (tb.amount * (bt.price * mult) * (1 - cfg.sellSlippage / 100) - bt.quoteAmount) := by
  have hs := executePaperSell_success cfg st tokenMint buyTradeId mult tsn tb qb bt hb hf hq
  refine ⟨?_, ?_, ?_⟩
  · apply executePaperSell_noop_of_missing_balance
    rw [hs]
    exact mapGet_mapDelete_self _ _
  · rw [hs]
    unfold sellTradeCount
    dsimp only
    rw [List.countP_append]
    simp
  · rw [hs]

/-- Witness for `close_idempotent`: double Close of the example position. -/
theorem close_idempotent_witness :
    (mapGet exampleAfterOpen.paperBalances "MINTA"
      = some { token := "MINTA", amount := 100, symbol := tokenSymbolOf "MINTA" }) ∧
    (exampleAfterOpen.paperTrades.find?
        (fun t => t.id == mkTradeId 1 11 && t.action == TradeAction.buy)
      = some { id := mkTradeId 1 11, action := TradeAction.buy, token := "MINTA",
               tokenSymbol := tokenSymbolOf "MINTA", quoteAmount := 0.05,
               tokenAmount := 100, price := 0.0005, timestamp := 11 }) ∧
    (mapGet exampleAfterOpen.paperBalances exampleCfg.quoteSymbol
      = some { token := "WSOL", amount := 0.95, symbol := "SOL" }) ∧
    (executePaperSell exampleCfg "MINTA" (mkTradeId 1 11) 2 22
        (executePaperSell exampleCfg "MINTA" (mkTradeId 1 11) 1.5 12 exampleAfterOpen).1
      = ((executePaperSell exampleCfg "MINTA" (mkTradeId 1 11) 1.5 12 exampleAfterOpen).1,
         [LogEvent.sellNoop]) ∧
     sellTradeCount (executePaperSell exampleCfg "MINTA" (mkTradeId 1 11) 1.5 12
        exampleAfterOpen).1 = sellTradeCount exampleAfterOpen + 1 ∧
     (executePaperSell exampleCfg "MINTA" (mkTradeId 1 11) 1.5 12
        exampleAfterOpen).1.totalPaperProfit
       = exampleAfterOpen.totalPaperProfit
         + ((100 : ℚ) * (0.0005 * 1.5) * (1 - exampleCfg.sellSlippage / 100) - 0.05)) :=
  ⟨by decide, by decide, by decide,
    close_idempotent exampleCfg exampleAfterOpen "MINTA" (mkTradeId 1 11) 1.5 2 12 22
      { token := "MINTA", amount := 100, symbol := tokenSymbolOf "MINTA" }
      { token := "WSOL", amount := 0.95, symbol := "SOL" }
      { id := mkTradeId 1 11, action := TradeAction.buy, token := "MINTA",
        tokenSymbol := tokenSymbolOf "MINTA", quoteAmount := 0.05,
        tokenAmount := 100, price := 0.0005, timestamp := 11 }
      (by decide) (by decide) (by decide)⟩

/-- C9: When an Open executes for an asset that already has a Balance
entry, `Map.set` replaces that entry: the resulting quantity is just the
newly computed `quoteAmount / price` (the prior position's quantity is
discarded), while the quote balance is debited the full quote amount again. -/
theorem rebuy_replaces_entry (cfg : Config) (st : BotState) (tokenMint : String)
    (estimatedTokenPrice : ℚ) (ts : Nat) (qb old : PaperBalance)
    (hq : mapGet st.paperBalances cfg.quoteSymbol = some qb)
    (hge : cfg.quoteAmount ≤ qb.amount)
    (hmint : tokenMint ≠ cfg.quoteSymbol)
    (hold : mapGet st.paperBalances tokenMint = some old) :
    mapGet (executePaperBuy cfg tokenMint estimatedTokenPrice ts st).1.paperBalances tokenMint
      = some { token := tokenMint, amount := cfg.quoteAmount / estimatedTokenPrice,
               symbol := tokenSymbolOf tokenMint } ∧
    mapGet (executePaperBuy cfg tokenMint estimatedTokenPrice ts st).1.paperBalances
        cfg.quoteSymbol
      = some { qb with amount := qb.amount - cfg.quoteAmount } := by
  unfold executePaperBuy
  rw [hq]
  dsimp only
  rw [if_neg (not_lt.mpr hge)]
  dsimp only
  constructor
  · exact mapGet_mapSet_self _ _ _
  · rw [mapGet_mapSet_ne _ _ _ _ (Ne.symm hmint)]
    exact mapGet_mapSet_self _ _ _

/-- Witness for `rebuy_replaces_entry`: a second buy of `MINTA` (price
0.001, so quantity 50) on top of the example's open position of 100; the
resulting entry holds only 50 and SOL is debited another 0.05. -/
theorem rebuy_replaces_entry_witness :
    (mapGet exampleAfterOpen.paperBalances exampleCfg.quoteSymbol
      = some { token := "WSOL", amount := 0.95, symbol := "SOL" }) ∧
    (exampleCfg.quoteAmount ≤ (0.95 : ℚ)) ∧
    ("MINTA" ≠ exampleCfg.quoteSymbol) ∧
    (mapGet exampleAfterOpen.paperBalances "MINTA"
      = some { token := "MINTA", amount := 100, symbol := tokenSymbolOf "MINTA" }) ∧
    (mapGet (executePaperBuy exampleCfg "MINTA" 0.001 13 exampleAfterOpen).1.paperBalances
        "MINTA"
      = some { token := "MINTA", amount := exampleCfg.quoteAmount / 0.001,
               symbol := tokenSymbolOf "MINTA" } ∧
     mapGet (executePaperBuy exampleCfg "MINTA" 0.001 13 exampleAfterOpen).1.paperBalances
        exampleCfg.quoteSymbol
      = some { token := "WSOL", amount := (0.95 : ℚ) - exampleCfg.quoteAmount,
               symbol := "SOL" }) :=
  ⟨by decide, by decide, by decide, by decide,
    rebuy_replaces_entry exampleCfg exampleAfterOpen "MINTA" 0.001 13
      { token := "WSOL", amount := 0.95, symbol := "SOL" }
      { token := "MINTA", amount := 100, symbol := tokenSymbolOf "MINTA" }
      (by decide) (by decide) (by decide) (by decide)⟩

/-- C10: A successful Close records the Sell's `tokenAmount` (and the
proceeds) from the asset's current Balance-entry quantity `tb.amount` at
close time — not from the matched Buy's recorded `tokenAmount` (which does
not occur in the appended record); the settled quantity therefore differs
from the Buy's whenever the entry was overwritten in between. -/
theorem close_settles_current_balance_quantity (cfg : Config) (st : BotState)
    (tokenMint buyTradeId : String) (mult : ℚ) (ts : Nat)
    (tb qb : PaperBalance) (bt : PaperTrade)
    (hb : mapGet st.paperBalances tokenMint = some tb)
    (hf : st.paperTrades.find? (fun t => t.id == buyTradeId && t.action == TradeAction.buy)
      = some bt)
    (hq : mapGet st.paperBalances cfg.quoteSymbol = some qb) :
    (executePaperSell cfg tokenMint buyTradeId mult ts st).1.paperTrades
      = st.paperTrades ++
        [{ id := mkSellId buyTradeId
           action := TradeAction.sell
           token := tokenMint
           tokenSymbol := bt.tokenSymbol
           quoteAmount := tb.amount * (bt.price * mult) * (1 - cfg.sellSlippage / 100)
           tokenAmount := tb.amount
           price := bt.price * mult
           timestamp := ts
           profit := some (tb.amount * (bt.price * mult) * (1 - cfg.sellSlippage / 100)
             - bt.quoteAmount)
           profitPercent := some ((tb.amount * (bt.price * mult)
             * (1 - cfg.sellSlippage / 100) - bt.quoteAmount) / bt.quoteAmount * 100) }] := by
  rw [executePaperSell_success cfg st tokenMint buyTradeId mult ts tb qb bt hb hf hq]

/-- The example state after buying `MINTA` a second time (price 0.001 →
quantity 50) while the first position, bought as 100 tokens, is still open:
the Balance entry now holds 50 though the open Buy record says 100. -/
def exampleRebuy : BotState :=
  (executePaperBuy exampleCfg "MINTA" 0.001 13 exampleAfterOpen).1

/-- Witness for `close_settles_current_balance_quantity`: closing buy
`trade_1_11` (which acquired 100 tokens) after the re-buy settles the
current Balance quantity 50, not the Buy's 100. -/
theorem close_settles_current_balance_quantity_witness :
    (mapGet exampleRebuy.paperBalances "MINTA"
      = some { token := "MINTA", amount := 50, symbol := tokenSymbolOf "MINTA" }) ∧
    (exampleRebuy.paperTrades.find?
        (fun t => t.id == mkTradeId 1 11 && t.action == TradeAction.buy)
      = some { id := mkTradeId 1 11, action := TradeAction.buy, token := "MINTA",
               tokenSymbol := tokenSymbolOf "MINTA", quoteAmount := 0.05,
               tokenAmount := 100, price := 0.0005, timestamp := 11 }) ∧
    (mapGet exampleRebuy.paperBalances exampleCfg.quoteSymbol
      = some { token := "WSOL", amount := 0.9, symbol := "SOL" }) ∧
    ((executePaperSell exampleCfg "MINTA" (mkTradeId 1 11) 1.5 14 exampleRebuy).1.paperTrades
      = exampleRebuy.paperTrades ++
        [{ id := mkSellId (mkTradeId 1 11)
           action := TradeAction.sell
           token := "MINTA"
           tokenSymbol := tokenSymbolOf "MINTA"
           quoteAmount := (50 : ℚ) * (0.0005 * 1.5) * (1 - exampleCfg.sellSlippage / 100)
           tokenAmount := 50
           price := 0.0005 * 1.5
           timestamp := 14
           profit := some ((50 : ℚ) * (0.0005 * 1.5) * (1 - exampleCfg.sellSlippage / 100)
             - 0.05)
           profitPercent := some (((50 : ℚ) * (0.0005 * 1.5)
             * (1 - exampleCfg.sellSlippage / 100) - 0.05) / 0.05 * 100) }]) :=
  ⟨by decide, by decide, by decide,
    close_settles_current_balance_quantity exampleCfg exampleRebuy "MINTA" (mkTradeId 1 11)
      1.5 14
      { token := "MINTA", amount := 50, symbol := tokenSymbolOf "MINTA" }
      { token := "WSOL", amount := 0.9, symbol := "SOL" }
      { id := mkTradeId 1 11, action := TradeAction.buy, token := "MINTA",
        tokenSymbol := tokenSymbolOf "MINTA", quoteAmount := 0.05,
        tokenAmount := 100, price := 0.0005, timestamp := 11 }
      (by decide) (by decide) (by decide)⟩

/-- The racing trace: open `MINTA` (arming an auto-sell timer for
`trade_1_11`), settle it via an external wallet-sell event, re-buy `MINTA`
(arming a second timer), then let the still-pending first timer fire with
its captured buy id `trade_1_11`. -/
def raceEvents : List Event :=
  [ Event.poolDetected "MINTA" 0.0005 11
  , Event.walletSell "MINTA" 1.5 12
  , Event.poolDetected "MINTA" 0.0004 13
  , Event.timerFired 0 2 14 ]

/-- C1 fails on the code: after `raceEvents`, TWO Sell trades with the
derived id `sell_trade_1_11` are in the ledger.  `executePaperSell` (the
timer path) checks only that a Balance entry and the Buy record exist — not
whether a Sell with the derived id was already appended (the guard present
in the external `sell` path) — so a re-buy of the asset resurrects the
Balance entry and lets the stale timer settle the same Buy a second time. -/
theorem double_settlement_on_rebuy_race :
    ((run exampleCfg (initialState exampleCfg) raceEvents).paperTrades.countP
      (fun t => t.id == mkSellId (mkTradeId 1 11) && t.action == TradeAction.sell)) = 2 := by
  decide

/-! ## Ledger conservation (C7) -/

/-- The environment constraint for conservation: pool events never carry the
quote asset's map key as token mint (in the source the quote key is a
currency symbol and token keys are base58 mint addresses). -/
def eventRespectsQuote (qs : String) : Event → Bool
  | Event.poolDetected tokenMint _ _ => !(tokenMint == qs)
  | _ => true

/-- Conservation invariant: the quote balance tracks the initial balance
minus Buy volume plus Sell volume, pending timers and Buy trades never
target the quote key. -/
def ConsInv (cfg : Config) (st : BotState) : Prop :=
  quoteBalanceOf cfg st = st.initialBalance - buyVolume st + sellVolume st ∧
  (∀ p ∈ st.pendingSells, p.1 ≠ cfg.quoteSymbol) ∧
  (∀ t ∈ st.paperTrades, t.action = TradeAction.buy → t.token ≠ cfg.quoteSymbol)

theorem quoteBalanceOf_eq (cfg : Config) (st : BotState) (qb : PaperBalance)
    (h : mapGet st.paperBalances cfg.quoteSymbol = some qb) :
    quoteBalanceOf cfg st = qb.amount := by
  unfold quoteBalanceOf
  rw [h]
  rfl

theorem buyVolumeL_append (l1 l2 : List PaperTrade) :
    buyVolumeL (l1 ++ l2) = buyVolumeL l1 + buyVolumeL l2 := by
  simp [buyVolumeL, List.filter_append]

theorem sellVolumeL_append (l1 l2 : List PaperTrade) :
    sellVolumeL (l1 ++ l2) = sellVolumeL l1 + sellVolumeL l2 := by
  simp [sellVolumeL, List.filter_append]

theorem buyVolumeL_buy_singleton (t : PaperTrade) (h : t.action = TradeAction.buy) :
    buyVolumeL [t] = t.quoteAmount := by
  simp [buyVolumeL, h]

theorem sellVolumeL_buy_singleton (t : PaperTrade) (h : t.action = TradeAction.buy) :
    sellVolumeL [t] = 0 := by
  simp [sellVolumeL, h]

theorem buyVolumeL_sell_singleton (t : PaperTrade) (h : t.action = TradeAction.sell) :
    buyVolumeL [t] = 0 := by
  simp [buyVolumeL, h]

theorem sellVolumeL_sell_singleton (t : PaperTrade) (h : t.action = TradeAction.sell) :
    sellVolumeL [t] = t.quoteAmount := by
  simp [sellVolumeL, h]

theorem executePaperBuy_consInv (cfg : Config) (st : BotState) (tokenMint : String)
    (estimatedTokenPrice : ℚ) (ts : Nat) (hmint : tokenMint ≠ cfg.quoteSymbol)
    (h : ConsInv cfg st) :
    ConsInv cfg (executePaperBuy cfg tokenMint estimatedTokenPrice ts st).1 := by
  obtain ⟨h1, h2, h3⟩ := h
  unfold executePaperBuy
  split
  · exact ⟨h1, h2, h3⟩
  · rename_i qb hq
    split
    · exact ⟨h1, h2, h3⟩
    · refine ⟨?_, ?_, ?_⟩
      · rw [quoteBalanceOf_eq cfg st qb hq] at h1
        unfold buyVolume sellVolume at h1
        unfold quoteBalanceOf buyVolume sellVolume
        dsimp only
        rw [mapGet_mapSet_ne _ _ _ _ (Ne.symm hmint), mapGet_mapSet_self]
        rw [buyVolumeL_append, sellVolumeL_append,
          buyVolumeL_buy_singleton _ rfl, sellVolumeL_buy_singleton _ rfl]
        simp only [Option.map_some', Option.getD_some]
        linarith [h1]
      · intro p hp
        dsimp only at hp
        by_cases hauto : cfg.autoSell = true
        · rw [if_pos hauto] at hp
          rcases List.mem_append.mp hp with hold | hnew
          · exact h2 p hold
          · rw [List.mem_singleton] at hnew
            subst hnew
            exact hmint
        · rw [if_neg hauto] at hp
          exact h2 p hp
      · intro t ht hact
        dsimp only at ht
        rcases List.mem_append.mp ht with hold | hnew
        · exact h3 t hold hact
        · rw [List.mem_singleton] at hnew
          subst hnew
          exact hmint

theorem executePaperSell_consInv (cfg : Config) (st : BotState)
    (tokenMint buyTradeId : String) (mult : ℚ) (ts : Nat)
    (hmint : tokenMint ≠ cfg.quoteSymbol) (h : ConsInv cfg st) :
    ConsInv cfg (executePaperSell cfg tokenMint buyTradeId mult ts st).1 := by
  obtain ⟨h1, h2, h3⟩ := h
  unfold executePaperSell
  split
  · rename_i tb bt hb hf
    split
    · exact ⟨h1, h2, h3⟩
    · rename_i qb hq
      refine ⟨?_, h2, ?_⟩
      · rw [quoteBalanceOf_eq cfg st qb hq] at h1
        unfold buyVolume sellVolume at h1
        unfold quoteBalanceOf buyVolume sellVolume
        dsimp only
        rw [mapGet_mapDelete_ne _ _ _ (Ne.symm hmint), mapGet_mapSet_self]
        rw [buyVolumeL_append, sellVolumeL_append,
          buyVolumeL_sell_singleton _ rfl, sellVolumeL_sell_singleton _ rfl]
        simp only [Option.map_some', Option.getD_some]
        linarith [h1]
      · intro t ht hact
        dsimp only at ht
        rcases List.mem_append.mp ht with hold | hnew
        · exact h3 t hold hact
        · rw [List.mem_singleton] at hnew
          subst hnew
          cases hact
  · exact ⟨h1, h2, h3⟩

theorem sell_consInv (cfg : Config) (st : BotState) (tokenMint : String)
    (mult : ℚ) (ts : Nat) (h : ConsInv cfg st) :
    ConsInv cfg (sell cfg tokenMint mult ts st).1 := by
  unfold sell
  split
  · split
    · rename_i buyTrade hf
      have hmem := List.mem_of_find?_eq_some hf
      have hpred := List.find?_some hf
      simp only [Bool.and_eq_true, beq_iff_eq] at hpred
      have htok : buyTrade.token = tokenMint := hpred.1.1
      have hact : buyTrade.action = TradeAction.buy := hpred.1.2
      have hne : tokenMint ≠ cfg.quoteSymbol := by
        rw [← htok]
        exact h.2.2 buyTrade hmem hact
      exact executePaperSell_consInv cfg st tokenMint buyTrade.id mult ts hne h
    · exact h
  · exact h

theorem fireTimer_consInv (cfg : Config) (st : BotState) (i : Nat)
    (mult : ℚ) (ts : Nat) (h : ConsInv cfg st) :
    ConsInv cfg (fireTimer cfg i mult ts st).1 := by
  obtain ⟨h1, h2, h3⟩ := h
  unfold fireTimer
  split
  · rename_i p tokenMint buyTradeId hg
    have hmem : (tokenMint, buyTradeId) ∈ st.pendingSells := by
      exact List.getElem?_mem hg
    have hne : tokenMint ≠ cfg.quoteSymbol := h2 _ hmem
    apply executePaperSell_consInv cfg _ tokenMint buyTradeId mult ts hne
    refine ⟨h1, ?_, h3⟩
    intro q hq
    exact h2 q (List.eraseIdx_subset _ _ hq)
  · exact ⟨h1, h2, h3⟩

theorem step_consInv (cfg : Config) (st : BotState) (e : Event)
    (he : eventRespectsQuote cfg.quoteSymbol e = true) (h : ConsInv cfg st) :
    ConsInv cfg (step cfg st e).1 := by
  cases e with
  | poolDetected tokenMint price ts =>
    have hne : tokenMint ≠ cfg.quoteSymbol := by
      simpa [eventRespectsQuote] using he
    exact executePaperBuy_consInv cfg st tokenMint price ts hne h
  | walletSell tokenMint mult ts => exact sell_consInv cfg st tokenMint mult ts h
  | timerFired i mult ts => exact fireTimer_consInv cfg st i mult ts h

theorem run_consInv (cfg : Config) (es : List Event) (st : BotState)
    (he : ∀ e ∈ es, eventRespectsQuote cfg.quoteSymbol e = true) (h : ConsInv cfg st) :
    ConsInv cfg (run cfg st es) := by
  induction es generalizing st with
  | nil => exact h
  | cons e rest ih =>
    exact ih _ (fun e' he' => he e' (List.mem_cons_of_mem e he'))
      (step_consInv cfg st e (he e (List.mem_cons_self e rest)) h)

theorem initialState_consInv (cfg : Config)
    (hqs : cfg.quoteSymbol = "SOL" ∨ cfg.quoteSymbol = "USDC") :
    ConsInv cfg (initialState cfg) := by
  rcases hqs with hs | hu
  · refine ⟨?_, by simp [initialState, hs], by simp [initialState, hs]⟩
    simp [initialState, quoteBalanceOf, buyVolume, sellVolume, buyVolumeL, sellVolumeL,
      mapGet, List.find?, hs]
  · refine ⟨?_, by simp [initialState, hu], by simp [initialState, hu]⟩
    simp [initialState, quoteBalanceOf, buyVolume, sellVolume, buyVolumeL, sellVolumeL,
      mapGet, List.find?, hu]

/-- C7: Ledger conservation: for every sequence of pool, wallet-sell and
timer events starting from the initial state (with the quote key one of the
two the source initializes, and pool events carrying genuine token mints,
never the quote key), the final state satisfies
`initialQuoteBalance - currentQuoteBalance + Σ netProceeds(Sells)
  = Σ quoteAmount(Buys)`. -/
theorem ledger_conservation (cfg : Config) (es : List Event)
    (hqs : cfg.quoteSymbol = "SOL" ∨ cfg.quoteSymbol = "USDC")
    (he : ∀ e ∈ es, eventRespectsQuote cfg.quoteSymbol e = true) :
    (run cfg (initialState cfg) es).initialBalance
        - quoteBalanceOf cfg (run cfg (initialState cfg) es)
        + sellVolume (run cfg (initialState cfg) es)
      = buyVolume (run cfg (initialState cfg) es) := by
  have h := (run_consInv cfg es (initialState cfg) he (initialState_consInv cfg hqs)).1
  linarith [h]

/-- Witness for `ledger_conservation`: the example Open + external Close
trace, with `1 - 1.0235 + 0.0735 = 0.05`. -/
theorem ledger_conservation_witness :
    (exampleCfg.quoteSymbol = "SOL" ∨ exampleCfg.quoteSymbol = "USDC") ∧
    (∀ e ∈ [Event.poolDetected "MINTA" 0.0005 11, Event.walletSell "MINTA" 1.5 12],
      eventRespectsQuote exampleCfg.quoteSymbol e = true) ∧
    ((run exampleCfg (initialState exampleCfg)
        [Event.poolDetected "MINTA" 0.0005 11, Event.walletSell "MINTA" 1.5 12]).initialBalance
      - quoteBalanceOf exampleCfg (run exampleCfg (initialState exampleCfg)
          [Event.poolDetected "MINTA" 0.0005 11, Event.walletSell "MINTA" 1.5 12])
      + sellVolume (run exampleCfg (initialState exampleCfg)
          [Event.poolDetected "MINTA" 0.0005 11, Event.walletSell "MINTA" 1.5 12])
      = buyVolume (run exampleCfg (initialState exampleCfg)
          [Event.poolDetected "MINTA" 0.0005 11, Event.walletSell "MINTA" 1.5 12])) :=
  ⟨by decide, by decide,
    ledger_conservation exampleCfg
      [Event.poolDetected "MINTA" 0.0005 11, Event.walletSell "MINTA" 1.5 12]
      (by decide) (by decide)⟩

end Proofs
